import Mathlib

/-!
# Verification of the bet-lifecycle core of `bot.py`

A shallow embedding of the betting bot's core state machine: the Firestore-backed
store (tracked match state, unresolved bets, resolved bets, last-resolution-call
marker), the live-cycle trigger detection (`process_live_match` with
`place_32_over_bet` / `place_80_minute_bet`), and the stale-resolution sweep
(`check_and_resolve_stale_bets` with its inline outcome evaluator and
`move_to_resolved`).

Modelling conventions:
* Wall-clock time is `Int` seconds.  A timestamp *string* of the program
  (produced by `strftime('%Y-%m-%d %H:%M:%S')` and read back by `strptime`)
  is modelled through the result of parsing it: `Option Int`, where `some t`
  means the string parses to absolute time `t` and `none` means `strptime`
  raises `ValueError`.  A field that may be absent altogether is wrapped in a
  further `Option` (`none` = key absent, `some p` = key present with parse
  result `p`).
* Firestore collections keyed by the stringified fixture id are association
  lists `List (Nat × _)` (for collections the code enumerates) or functional
  maps `Nat → Option _` (for `tracked_matches`, which the code only ever
  accesses by key).  `setEntry` keeps keys unique, as a Python dict /
  Firestore collection does; enumeration order is not load-bearing for any
  verified property.
* External collaborators are oracles passed as arguments: `fetch` for
  `get_fixture_by_id` (`none` = fetch failure), `sendOk` for the boolean
  result of `send_telegram`.  Store writes succeed unless a failure flag
  says otherwise (`moveToResolved` takes such a flag for its
  resolved-collection write, the one failure mode §3 of the spec talks
  about).
-/

namespace BetBot

/-! ## Constants (top of `bot.py`) -/

def FIXTURE_API_INTERVAL : Int := 900

def MINUTES_32_MINUTE_BET : List Nat := [31, 32, 33]

def MINUTES_80_MINUTE_BET : List Nat := [79, 80, 81]

def BET_TYPE_32_OVER : String := "32_over"

def BET_TYPE_80_MINUTE : String := "80_minute"

def STATUS_LIVE : List String := ["LIVE", "1H", "2H", "ET", "P"]

def STATUS_HALFTIME : String := "HT"

def STATUS_FINISHED : List String := ["FT", "AET", "PEN"]

def BET_SCORES_80_MINUTE : List String := ["3-1", "2-0"]

/-! ## Data model -/

/-- An unresolved- or resolved-bet document.  The Python dicts built in
`place_32_over_bet` and `place_80_minute_bet` have slightly different key
sets; keys that a given record kind does not carry are `none`
(`score32`/`overLine` only on `32_over` records, `score80` only on
`80_minute` records).  `placedAt` models the `placed_at` timestamp string:
outer `Option` = key present, inner `Option Int` = parse result. -/
structure BetRecord where
  matchName : String
  placedAt : Option (Option Int)
  league : String
  country : String
  leagueId : Nat
  betType : String
  score32 : Option String
  overLine : Option Rat
  score80 : Option String
  fixtureId : Nat
deriving DecidableEq, Repr

/-- A `tracked_matches` document: the per-window "already evaluated" flags and
the recorded 80' trigger score. -/
structure TrackedState where
  bet32Placed : Bool
  bet80Placed : Bool
  score80 : Option String
deriving DecidableEq, Repr

/-- The default dict built in `process_live_match` when no tracked state
exists yet. -/
def defaultTrackedState : TrackedState :=
  { bet32Placed := false, bet80Placed := false, score80 := none }

/-- A `resolved_bets` document: the bet record plus outcome and resolution
time (`resolved_at`; the opaque `SERVER_TIMESTAMP` sentinel is not
modelled separately). -/
structure ResolvedRecord where
  betInfo : BetRecord
  outcome : String
  resolvedAt : Int
deriving DecidableEq, Repr

/-- The relevant projection of one fixture object returned by the feed
(`fixture.status.short`, `goals.home`, `goals.away`). -/
structure FixtureData where
  statusShort : String
  goalsHome : Option Nat
  goalsAway : Option Nat
deriving DecidableEq, Repr

/-- The relevant projection of one live-match snapshot consumed by
`process_live_match` (fixture id and status, elapsed minute, goals, and the
display/league fields copied into bet records). -/
structure MatchSnapshot where
  fixtureId : Nat
  statusShort : String
  elapsed : Option Nat
  goalsHome : Option Nat
  goalsAway : Option Nat
  matchName : String
  leagueName : String
  country : String
  leagueId : Nat
deriving DecidableEq, Repr

/-! ## Keyed-collection primitives -/

/-- Dict lookup (`collection.document(k).get` / `dict.get(k)`). -/
def getEntry (k : Nat) : List (Nat × α) → Option α
  | [] => none
  | p :: l => if p.1 == k then some p.2 else getEntry k l

/-- Dict deletion (`collection.document(k).delete()`). -/
def delEntry (k : Nat) (l : List (Nat × α)) : List (Nat × α) :=
  l.filter (fun p => p.1 != k)

/-- Dict overwrite (`collection.document(k).set(v)`): keys stay unique. -/
def setEntry (k : Nat) (v : α) (l : List (Nat × α)) : List (Nat × α) :=
  (k, v) :: delEntry k l

/-- The whole persistent store: the three collections plus the
`config/api_tracker` document's `last_resolution_api_call` field (outer
`Option` = field absent, inner = timestamp parse result). -/
structure Store where
  trackedMatches : Nat → Option TrackedState
  unresolvedBets : List (Nat × BetRecord)
  resolvedBets : List (Nat × ResolvedRecord)
  lastResolutionApiCall : Option (Option Int)

/-! ## FirebaseManager methods -/

/-- `FirebaseManager.get_tracked_match`. -/
def getTrackedMatch (matchId : Nat) (st : Store) : Option TrackedState :=
  st.trackedMatches matchId

/-- `FirebaseManager.update_tracked_match` (a `set` with `merge=True`; the
dict written always carries every field, so it is a plain overwrite). -/
def updateTrackedMatch (matchId : Nat) (s : TrackedState) (st : Store) : Store :=
  { st with trackedMatches := fun k => if k = matchId then some s else st.trackedMatches k }

/-- `FirebaseManager.delete_tracked_match`. -/
def deleteTrackedMatch (matchId : Nat) (st : Store) : Store :=
  { st with trackedMatches := fun k => if k = matchId then none else st.trackedMatches k }

/-- `FirebaseManager.add_unresolved_bet`: stamps `placed_at` with "now" and
overwrites the document keyed by the match id. -/
def addUnresolvedBet (now : Int) (matchId : Nat) (data : BetRecord) (st : Store) : Store :=
  { st with unresolvedBets :=
      setEntry matchId { data with placedAt := some (some now) } st.unresolvedBets }

/-- `FirebaseManager.move_to_resolved`.  `resolvedWriteOk` models whether the
write to the `resolved_bets` collection succeeds; when it raises, the
`except` branch returns `False` before the `unresolved_bets` delete runs, so
the store is unchanged.  (A failure of the subsequent delete — not the
failure mode any claim is about — would leave both records and also return
`False`; it is not modelled.) -/
def moveToResolved (resolvedWriteOk : Bool) (now : Int) (matchId : Nat)
    (betInfo : BetRecord) (outcome : String) (st : Store) : Store × Bool :=
  if resolvedWriteOk then
    ({ st with
        resolvedBets := setEntry matchId ⟨betInfo, outcome, now⟩ st.resolvedBets,
        unresolvedBets := delEntry matchId st.unresolvedBets }, true)
  else (st, false)

/-- `FirebaseManager.update_last_api_call`: writes "now" (a timestamp string
that parses back to `now`). -/
def updateLastApiCall (now : Int) (st : Store) : Store :=
  { st with lastResolutionApiCall := some (some now) }

/-- The filter predicate of `FirebaseManager.get_stale_unresolved_bets` with
the default `minutes_to_wait=20`: FT-resolution bet types whose `placed_at`
is present, parses, and is strictly older than `now - 20` minutes.  An
absent (falsy) or unparsable `placed_at` skips the record. -/
def isStaleBet (now : Int) (b : BetRecord) : Bool :=
  (b.betType == BET_TYPE_80_MINUTE || b.betType == BET_TYPE_32_OVER) &&
    match b.placedAt with
    | some (some t) => decide (t < now - 20 * 60)
    | _ => false

/-- `FirebaseManager.get_stale_unresolved_bets`. -/
def getStaleUnresolvedBets (now : Int) (bets : List (Nat × BetRecord)) :
    List (Nat × BetRecord) :=
  bets.filter (fun p => isStaleBet now p.2)

/-! ## Trigger handling (`place_32_over_bet`, `place_80_minute_bet`,
`process_live_match`) -/

/-- Python's `str.upper()` (`Char.toUpper` only affects basic latin
letters, exactly the range status codes use).  Defined by structural
recursion over the character list so that it evaluates inside the kernel
(`String.toUpper` is defined by well-founded recursion and does not). -/
def pyUpper (s : String) : String :=
  String.mk (s.data.map Char.toUpper)

/-- The f-string `f"{home_goals}-{away_goals}"`. -/
def mkScore (h a : Nat) : String :=
  toString h ++ "-" ++ toString a

/-- `place_32_over_bet`: on a qualifying score (`0-1` or `1-0`) set the
`32_bet_placed` flag, persist the tracked state, write the unresolved record
(Over 2.5) and notify; otherwise only set and persist the flag.  The second
component lists the `add_unresolved_bet` calls made (zero or one), used to
count record creations. -/
def place32OverBet (now : Int) (state : TrackedState) (m : MatchSnapshot)
    (score : String) (st : Store) : Store × List (Nat × BetRecord) :=
  if ["0-1", "1-0"].contains score then
    let state1 := { state with bet32Placed := true }
    let st1 := updateTrackedMatch m.fixtureId state1 st
    let data : BetRecord :=
      { matchName := m.matchName
        placedAt := some (some now)
        league := m.leagueName
        country := m.country
        leagueId := m.leagueId
        betType := BET_TYPE_32_OVER
        score32 := some score
        overLine := some (Rat.divInt 5 2)
        score80 := none
        fixtureId := m.fixtureId }
    (addUnresolvedBet now m.fixtureId data st1, [(m.fixtureId, data)])
  else
    (updateTrackedMatch m.fixtureId { state with bet32Placed := true } st, [])

/-- `place_80_minute_bet`: on a qualifying score (`3-1` or `2-0`) set the
`80_bet_placed` flag and record the score, persist, write the unresolved
record and notify; otherwise only set and persist the flag. -/
def place80MinuteBet (now : Int) (state : TrackedState) (m : MatchSnapshot)
    (score : String) (st : Store) : Store × List (Nat × BetRecord) :=
  if BET_SCORES_80_MINUTE.contains score then
    let state1 := { state with bet80Placed := true, score80 := some score }
    let st1 := updateTrackedMatch m.fixtureId state1 st
    let data : BetRecord :=
      { matchName := m.matchName
        placedAt := some (some now)
        league := m.leagueName
        country := m.country
        leagueId := m.leagueId
        betType := BET_TYPE_80_MINUTE
        score32 := none
        overLine := none
        score80 := some score
        fixtureId := m.fixtureId }
    (addUnresolvedBet now m.fixtureId data st1, [(m.fixtureId, data)])
  else
    (updateTrackedMatch m.fixtureId { state with bet80Placed := true } st, [])

/-- Line 357: `status.upper() not in STATUS_LIVE and status.upper() != 'HT'`. -/
def statusNotLive (status : String) : Bool :=
  !(STATUS_LIVE.contains (pyUpper status)) && (pyUpper status) != STATUS_HALFTIME

/-- Line 359: `minute is None and status.upper() not in [STATUS_HALFTIME]`. -/
def elapsedMissing (m : MatchSnapshot) : Bool :=
  m.elapsed.isNone && (pyUpper m.statusShort) != STATUS_HALFTIME

/-- Line 378 condition: first half, minute in the 31–33 window, 32' flag
unset.  Python's `minute in [..]` is `False` for `None`, hence `Option.any`;
truthiness of `state.get('32_bet_placed')` is the boolean flag. -/
def cond32 (m : MatchSnapshot) (state : TrackedState) : Bool :=
  pyUpper m.statusShort == "1H" &&
    m.elapsed.any (fun k => MINUTES_32_MINUTE_BET.contains k) &&
    !state.bet32Placed

/-- Line 386 condition: second half, minute in the 79–81 window, 80' flag
unset. -/
def cond80 (m : MatchSnapshot) (state : TrackedState) : Bool :=
  pyUpper m.statusShort == "2H" &&
    m.elapsed.any (fun k => MINUTES_80_MINUTE_BET.contains k) &&
    !state.bet80Placed

/-- Line 362: the tracked state `process_live_match` works on — the stored
document, or the fresh default when none exists. -/
def stateOf (m : MatchSnapshot) (st : Store) : TrackedState :=
  (getTrackedMatch m.fixtureId st).getD defaultTrackedState

/-- Line 355: the score string of the snapshot, with absent goal counts
defaulted to zero. -/
def scoreOf (m : MatchSnapshot) : String :=
  mkScore (m.goalsHome.getD 0) (m.goalsAway.getD 0)

/-- Lines 362–387: read (or default) the tracked state, then the
`if` / `elif` trigger-window dispatch. -/
def triggerStep (now : Int) (m : MatchSnapshot) (st : Store) :
    Store × List (Nat × BetRecord) :=
  if cond32 m (stateOf m st) then place32OverBet now (stateOf m st) m (scoreOf m) st
  else if cond80 m (stateOf m st) then place80MinuteBet now (stateOf m st) m (scoreOf m) st
  else (st, [])

/-- Lines 391–392: the terminal-status cleanup check, comparing the *raw*
status against `STATUS_FINISHED`; `get_unresolved_bets().get(id)` is truthy
exactly when a (non-empty) record dict is present. -/
def finishedCleanup (m : MatchSnapshot) (st : Store) : Store :=
  if STATUS_FINISHED.contains m.statusShort &&
      (getEntry m.fixtureId st.unresolvedBets).isNone then
    deleteTrackedMatch m.fixtureId st
  else st

/-- `process_live_match`: the two early-return guards (lines 357–360), the
trigger dispatch, then the cleanup check. -/
def processLiveMatch (now : Int) (m : MatchSnapshot) (st : Store) :
    Store × List (Nat × BetRecord) :=
  if statusNotLive m.statusShort then (st, [])
  else if elapsedMissing m then (st, [])
  else
    let sr := triggerStep now m st
    (finishedCleanup m sr.1, sr.2)

/-- The live half of `run_bot_once` iterated over any number of snapshots
(each paired with the wall-clock time of its cycle), accumulating every
`add_unresolved_bet` call made. -/
def runLiveCycles : List (Int × MatchSnapshot) → Store → Store × List (Nat × BetRecord)
  | [], st => (st, [])
  | p :: l, st =>
    let r := processLiveMatch p.1 p.2 st
    let r1 := runLiveCycles l r.1
    (r1.1, r.2 ++ r1.2)

/-! ## Outcome evaluation and the stale-resolution sweep
(`check_and_resolve_stale_bets`) -/

/-- `home_goals, away_goals = map(int, final_score.split('-'))`: exactly two
`'-'`-separated fields, each a decimal numeral; anything else raises
`ValueError`.  (After splitting on `'-'` a field cannot contain a sign;
Python's `int` would additionally tolerate surrounding whitespace or a
leading `+`, which cannot occur in a score string built from goal counts.) -/
def splitDash : List Char → List (List Char)
  | [] => [[]]
  | c :: rest =>
    let r := splitDash rest
    if c = '-' then [] :: r
    else
      match r with
      | h :: t => (c :: h) :: t
      | [] => [[c]]

/-- Python's `int(field)` on a `'-'`-free field: a non-empty all-digit
string parses to its decimal value; anything else raises `ValueError`. -/
def pyIntDigits (cs : List Char) : Option Nat :=
  if !cs.isEmpty && cs.all Char.isDigit then
    some (cs.foldl (fun n c => n * 10 + (c.toNat - '0'.toNat)) 0)
  else none

def parseScore (s : String) : Option (Nat × Nat) :=
  match splitDash s.data with
  | [h, a] =>
    match pyIntDigits h, pyIntDigits a with
    | some x, some y => some (x, y)
    | _, _ => none
  | _ => none

/-- The inline outcome evaluator of `check_and_resolve_stale_bets`
(lines 440–466): `80_minute` compares the final score string to the recorded
`80_score` (`None` compares unequal to any string); `32_over` parses the
final score (`ValueError` → outcome `"error"`) and compares the goal sum to
the recorded `over_line`; any other bet type leaves `outcome = None`.
The `none` result on a `32_over` record whose `over_line` is absent models
the `TypeError` Python would raise comparing `int` with `None` — an
exception no record written by this program can trigger (every `32_over`
record carries `over_line`); theorems whose truth depends on the loop not
crashing carry a well-formedness hypothesis ruling this case out. -/
def evalOutcome (betInfo : BetRecord) (finalScore : String) : Option String :=
  if betInfo.betType == BET_TYPE_80_MINUTE then
    some (if betInfo.score80 == some finalScore then "win" else "loss")
  else if betInfo.betType == BET_TYPE_32_OVER then
    match parseScore finalScore with
    | some hw =>
      match betInfo.overLine with
      | some line =>
        let totalGoals : Rat := ((hw.1 + hw.2 : Nat) : Rat)
        some (if line < totalGoals then "win"
              else if totalGoals < line then "loss"
              else "push")
      | none => none
    | none => some "error"
  else
    none

/-- Lines 468–474: the resolution move is attempted only for a computed,
non-`"error"` outcome, and performed only when `send_telegram` returns
`True`: move the record to `resolved_bets` and delete any leftover tracked
state. -/
def applyOutcome (now : Int) (sendOk : Nat → Bool) (matchId : Nat) (betInfo : BetRecord)
    (outcome : Option String) (st : Store) : Store :=
  match outcome with
  | some oc =>
    if oc != "error" then
      if sendOk matchId then
        deleteTrackedMatch matchId (moveToResolved true now matchId betInfo oc st).1
      else st
    else st
  | none => st

/-- One iteration of the sweep's `for match_id, bet_info in stale_bets.items()`
loop.  The accumulator carries the store, the ids for which a per-fixture
fetch was attempted, and the `successful_api_call` flag (set on any
non-`None` fetch, before the terminal-status check). -/
def sweepStep (now : Int) (fetch : Nat → Option FixtureData) (sendOk : Nat → Bool)
    (acc : Store × List Nat × Bool) (entry : Nat × BetRecord) : Store × List Nat × Bool :=
  match fetch entry.1 with
  | none => (acc.1, acc.2.1 ++ [entry.1], acc.2.2)
  | some md =>
    let st1 :=
      if STATUS_FINISHED.contains md.statusShort then
        let finalScore := mkScore (md.goalsHome.getD 0) (md.goalsAway.getD 0)
        applyOutcome now sendOk entry.1 entry.2 (evalOutcome entry.2 finalScore) acc.1
      else acc.1
    (st1, acc.2.1 ++ [entry.1], true)

/-- Elapsed seconds since the last-resolution-call marker: absent or
unparsable markers count as `FIXTURE_API_INTERVAL + 1` ("infinitely long
ago" for the purposes of the gate). -/
def timeSinceLastCall (now : Int) (marker : Option (Option Int)) : Int :=
  match marker with
  | some (some t) => now - t
  | _ => FIXTURE_API_INTERVAL + 1

/-- The result of one sweep: the store afterwards plus the fixture ids for
which a per-fixture fetch was attempted. -/
structure SweepResult where
  store : Store
  fetched : List Nat

/-- `check_and_resolve_stale_bets`: read the stale set (no-op when empty);
apply the 15-minute time gate; otherwise loop over the stale records, and
finally advance the marker exactly when at least one fetch succeeded. -/
def checkAndResolveStaleBets (now : Int) (fetch : Nat → Option FixtureData)
    (sendOk : Nat → Bool) (st : Store) : SweepResult :=
  let staleBets := getStaleUnresolvedBets now st.unresolvedBets
  if staleBets.isEmpty then ⟨st, []⟩
  else if timeSinceLastCall now st.lastResolutionApiCall < FIXTURE_API_INTERVAL then
    ⟨st, []⟩
  else
    let r := staleBets.foldl (sweepStep now fetch sendOk) (st, [], false)
    ⟨if r.2.2 then updateLastApiCall now r.1 else r.1, r.2.1⟩

/-! ## Basic lemmas about the store primitives -/

theorem getEntry_setEntry_self (k : Nat) (v : α) (l : List (Nat × α)) :
    getEntry k (setEntry k v l) = some v := by
  simp [getEntry, setEntry]

theorem getEntry_delEntry_self (k : Nat) (l : List (Nat × α)) :
    getEntry k (delEntry k l) = none := by
  induction l with
  | nil => rfl
  | cons p l ih =>
    by_cases h : p.1 = k
    · simpa [delEntry, h] using ih
    · simpa [delEntry, getEntry, h] using ih

theorem countKey_setEntry_self (k : Nat) (v : α) (l : List (Nat × α)) :
    (setEntry k v l).countP (fun p => p.1 == k) = 1 := by
  have hz : (delEntry k l).countP (fun p => p.1 == k) = 0 := by
    simp only [delEntry, List.countP_eq_zero]
    intro p hp
    have := (List.mem_filter.mp hp).2
    simpa using this
  simp [setEntry, List.countP_cons, hz]

theorem mem_setEntry_of_key {k : Nat} {v w : α} {l : List (Nat × α)}
    (h : (k, w) ∈ setEntry k v l) : w = v := by
  rcases List.mem_cons.mp h with h1 | h1
  · injection h1 with h2 h3
  · have := (List.mem_filter.mp h1).2
    simp at this

/-! ## Trigger-window flags and bet-creation counts -/

/-- The `32_bet_placed` flag for a match, as `process_live_match` reads it
(a missing tracked document defaults the flag to `False`). -/
def flag32 (matchId : Nat) (st : Store) : Bool :=
  ((st.trackedMatches matchId).getD defaultTrackedState).bet32Placed

/-- The `80_bet_placed` flag for a match. -/
def flag80 (matchId : Nat) (st : Store) : Bool :=
  ((st.trackedMatches matchId).getD defaultTrackedState).bet80Placed

/-- How many of the recorded `add_unresolved_bet` calls wrote a `32_over`
record. -/
def count32 (evs : List (Nat × BetRecord)) : Nat :=
  evs.countP (fun e => e.2.betType == BET_TYPE_32_OVER)

/-- How many of the recorded `add_unresolved_bet` calls wrote an `80_minute`
record. -/
def count80 (evs : List (Nat × BetRecord)) : Nat :=
  evs.countP (fun e => e.2.betType == BET_TYPE_80_MINUTE)

theorem count32_append (a b : List (Nat × BetRecord)) :
    count32 (a ++ b) = count32 a + count32 b :=
  List.countP_append _ _ _

theorem count80_append (a b : List (Nat × BetRecord)) :
    count80 (a ++ b) = count80 a + count80 b :=
  List.countP_append _ _ _

theorem flag32_updateTrackedMatch_self (id : Nat) (s : TrackedState) (st : Store) :
    flag32 id (updateTrackedMatch id s st) = s.bet32Placed := by
  simp [flag32, updateTrackedMatch]

theorem flag80_updateTrackedMatch_self (id : Nat) (s : TrackedState) (st : Store) :
    flag80 id (updateTrackedMatch id s st) = s.bet80Placed := by
  simp [flag80, updateTrackedMatch]

theorem flag32_addUnresolvedBet (now : Int) (id j : Nat) (d : BetRecord) (st : Store) :
    flag32 id (addUnresolvedBet now j d st) = flag32 id st := rfl

theorem flag80_addUnresolvedBet (now : Int) (id j : Nat) (d : BetRecord) (st : Store) :
    flag80 id (addUnresolvedBet now j d st) = flag80 id st := rfl

/-! ## Status-guard lemmas: a terminal raw status never passes the live
guard, so the cleanup branch of `process_live_match` is unreachable. -/

theorem mem_of_contains {s : String} {l : List String} (h : l.contains s = true) :
    s ∈ l :=
  List.elem_iff.mp h

theorem statusFinished_cases {s : String} (h : STATUS_FINISHED.contains s = true) :
    s = "FT" ∨ s = "AET" ∨ s = "PEN" := by
  simpa [STATUS_FINISHED] using mem_of_contains h

theorem statusNotLive_of_finished {s : String} (h : STATUS_FINISHED.contains s = true) :
    statusNotLive s = true := by
  rcases statusFinished_cases h with h1 | h1 | h1 <;> rw [h1] <;> decide

theorem statusNotLive_false_cases {s : String} (h : statusNotLive s = false) :
    STATUS_LIVE.contains (pyUpper s) = true ∨ pyUpper s = STATUS_HALFTIME := by
  unfold statusNotLive at h
  cases hc : STATUS_LIVE.contains (pyUpper s)
  · right
    rw [hc] at h
    simp only [Bool.not_false, Bool.true_and, bne_eq_false_iff_eq] at h
    exact h
  · exact Or.inl rfl

theorem statusFinished_contains_false {s : String}
    (h : STATUS_LIVE.contains (pyUpper s) = true ∨ pyUpper s = STATUS_HALFTIME) :
    STATUS_FINISHED.contains s = false := by
  cases hc : STATUS_FINISHED.contains s
  · rfl
  · rcases statusFinished_cases hc with h1 | h1 | h1 <;> subst h1 <;> revert h <;> decide

theorem finishedCleanup_noop {m : MatchSnapshot} (st : Store)
    (h : STATUS_FINISHED.contains m.statusShort = false) :
    finishedCleanup m st = st := by
  unfold finishedCleanup
  rw [h]
  simp

/-! ## C3: atomicity of the move-to-resolved operation -/

/-- C3: if the write of the resolved record fails, `move_to_resolved`
returns `False` and leaves the store — in particular the unresolved
record — untouched. -/
theorem moveToResolved_failed_write_keeps_unresolved
    (now : Int) (matchId : Nat) (betInfo : BetRecord) (outcome : String)
    (st : Store) (b : BetRecord)
    (h : getEntry matchId st.unresolvedBets = some b) :
    (moveToResolved false now matchId betInfo outcome st).1 = st ∧
    getEntry matchId (moveToResolved false now matchId betInfo outcome st).1.unresolvedBets
      = some b ∧
    (moveToResolved false now matchId betInfo outcome st).2 = false :=
  ⟨rfl, h, rfl⟩

/-- Sample `80_minute` unresolved record (target score `2-0`, fixture 3). -/
def bet80A : BetRecord :=
  { matchName := "A vs B", placedAt := some (some 0), league := "L", country := "C"
    leagueId := 1, betType := BET_TYPE_80_MINUTE, score32 := none, overLine := none
    score80 := some "2-0", fixtureId := 3 }

/-- Sample `32_over` unresolved record (line 2.5, fixture 3). -/
def bet32A : BetRecord :=
  { matchName := "A vs B", placedAt := some (some 0), league := "L", country := "C"
    leagueId := 1, betType := BET_TYPE_32_OVER, score32 := some "1-0"
    overLine := some (Rat.divInt 5 2), score80 := none, fixtureId := 3 }

/-- Sample store holding the one unresolved `80_minute` bet for fixture 3. -/
def store80 : Store :=
  { trackedMatches := fun _ => none, unresolvedBets := [(3, bet80A)]
    resolvedBets := [], lastResolutionApiCall := none }

theorem moveToResolved_failed_write_keeps_unresolved_witness :
    getEntry 3 store80.unresolvedBets = some bet80A ∧
    (moveToResolved false 0 3 bet80A "win" store80).1 = store80 ∧
    getEntry 3 (moveToResolved false 0 3 bet80A "win" store80).1.unresolvedBets
      = some bet80A :=
  ⟨rfl,
   (moveToResolved_failed_write_keeps_unresolved 0 3 bet80A "win" store80 bet80A rfl).1,
   (moveToResolved_failed_write_keeps_unresolved 0 3 bet80A "win" store80 bet80A rfl).2.1⟩

/-! ## C7: the terminal-status cleanup in `process_live_match` is dead code -/

/-- C7 (code divergence): for any snapshot whose status is terminal
(`FT`, `AET`, `PEN`), `process_live_match` returns at the live-status guard
(line 357) before reaching the cleanup at lines 391–392, so the store — in
particular the tracked match state — is left entirely unchanged, and no
deletion happens, contradicting the claimed cleanup behaviour. -/
theorem processLiveMatch_terminal_noop (now : Int) (m : MatchSnapshot) (st : Store)
    (h : STATUS_FINISHED.contains m.statusShort = true) :
    processLiveMatch now m st = (st, []) := by
  unfold processLiveMatch
  rw [if_pos (statusNotLive_of_finished h)]

/-- Sample finished-match snapshot for fixture 3 (final score 2-0). -/
def snapFT : MatchSnapshot :=
  { fixtureId := 3, statusShort := "FT", elapsed := none, goalsHome := some 2
    goalsAway := some 0, matchName := "A vs B", leagueName := "L", country := "C"
    leagueId := 1 }

/-- Store with a tracked state for fixture 3 and no unresolved bets: the
exact situation in which the claim requires deletion of the tracked state. -/
def trackedOnlyStore : Store :=
  { trackedMatches := fun k => if k = 3 then some defaultTrackedState else none
    unresolvedBets := [], resolvedBets := [], lastResolutionApiCall := none }

theorem processLiveMatch_terminal_noop_witness :
    STATUS_FINISHED.contains snapFT.statusShort = true ∧
    getEntry snapFT.fixtureId trackedOnlyStore.unresolvedBets = none ∧
    processLiveMatch 0 snapFT trackedOnlyStore = (trackedOnlyStore, []) ∧
    (processLiveMatch 0 snapFT trackedOnlyStore).1.trackedMatches 3
      = some defaultTrackedState :=
  ⟨rfl, rfl, processLiveMatch_terminal_noop 0 snapFT trackedOnlyStore rfl,
   by rw [processLiveMatch_terminal_noop 0 snapFT trackedOnlyStore rfl]; rfl⟩

/-! ## C1: the outcome evaluation rules -/

theorem evalOutcome_80 (b : BetRecord) (fs : String) (h80 : b.betType = BET_TYPE_80_MINUTE) :
    evalOutcome b fs = some (if b.score80 == some fs then "win" else "loss") := by
  unfold evalOutcome
  rw [h80, if_pos (by decide : (BET_TYPE_80_MINUTE == BET_TYPE_80_MINUTE) = true)]

theorem evalOutcome_32 (b : BetRecord) (fs : String) (line : Rat) (h a : Nat)
    (h32 : b.betType = BET_TYPE_32_OVER) (hline : b.overLine = some line)
    (hp : parseScore fs = some (h, a)) :
    evalOutcome b fs = some (if line < ((h + a : Nat) : Rat) then "win"
      else if ((h + a : Nat) : Rat) < line then "loss" else "push") := by
  unfold evalOutcome
  rw [h32, if_neg (by decide : ¬ (BET_TYPE_32_OVER == BET_TYPE_80_MINUTE) = true),
    if_pos (by decide : (BET_TYPE_32_OVER == BET_TYPE_32_OVER) = true), hp, hline]

theorem evalOutcome_32_err (b : BetRecord) (fs : String)
    (h32 : b.betType = BET_TYPE_32_OVER) (hp : parseScore fs = none) :
    evalOutcome b fs = some "error" := by
  unfold evalOutcome
  rw [h32, if_neg (by decide : ¬ (BET_TYPE_32_OVER == BET_TYPE_80_MINUTE) = true),
    if_pos (by decide : (BET_TYPE_32_OVER == BET_TYPE_32_OVER) = true), hp]

/-- An `"error"` outcome never reaches the send / move branch. -/
theorem applyOutcome_error (now : Int) (sendOk : Nat → Bool) (matchId : Nat)
    (b : BetRecord) (st : Store) :
    applyOutcome now sendOk matchId b (some "error") st = st := by
  unfold applyOutcome
  dsimp only
  rw [if_neg (by decide : ¬ (("error" : String) != "error") = true)]

/-- When the notification send fails, the outcome-application step does
nothing at all. -/
theorem applyOutcome_send_failed (now : Int) (sendOk : Nat → Bool) (matchId : Nat)
    (b : BetRecord) (oc : Option String) (st : Store) (hs : sendOk matchId = false) :
    applyOutcome now sendOk matchId b oc st = st := by
  unfold applyOutcome
  cases oc with
  | none => rfl
  | some oc =>
    dsimp only
    by_cases h1 : (oc != "error") = true
    · rw [if_pos h1, if_neg (by simp [hs])]
    · rw [if_neg h1]

/-- C1: for every bet record processed by the sweep's evaluator —
(i) an `80_minute` bet wins exactly when the final score string equals the
recorded `80_score` target and loses otherwise; (ii) a `32_over` bet whose
final score parses into two integers wins when their sum strictly exceeds
the recorded line, loses when strictly below, pushes when exactly equal;
(iii) a `32_over` bet whose final score fails to parse gets outcome
`"error"`, and (iv) an `"error"` outcome performs no resolution move at all
(the store, in particular the unresolved record, is untouched). -/
theorem outcome_evaluation_rules (b : BetRecord) (fs : String) :
    (b.betType = BET_TYPE_80_MINUTE →
      ((evalOutcome b fs = some "win" ↔ b.score80 = some fs) ∧
       (b.score80 ≠ some fs → evalOutcome b fs = some "loss"))) ∧
    (∀ line h a, b.betType = BET_TYPE_32_OVER → b.overLine = some line →
      parseScore fs = some (h, a) →
      ((line < ((h + a : Nat) : Rat) → evalOutcome b fs = some "win") ∧
       (((h + a : Nat) : Rat) < line → evalOutcome b fs = some "loss") ∧
       (((h + a : Nat) : Rat) = line → evalOutcome b fs = some "push"))) ∧
    (b.betType = BET_TYPE_32_OVER → parseScore fs = none →
      evalOutcome b fs = some "error") ∧
    (∀ now sendOk matchId st,
      applyOutcome now sendOk matchId b (some "error") st = st) := by
  refine ⟨?_, ?_, ?_, ?_⟩
  · intro h80
    rw [evalOutcome_80 b fs h80]
    cases hb : b.score80 == some fs
    · rw [if_neg (by simp [hb])]
      constructor
      · constructor
        · intro hq
          exact absurd hq (by simp)
        · intro hq
          exact absurd hq (by simpa using hb)
      · intro _
        rfl
    · have heq : b.score80 = some fs := eq_of_beq hb
      rw [if_pos rfl]
      exact ⟨⟨fun _ => heq, fun _ => rfl⟩, fun hne => absurd heq hne⟩
  · intro line h a h32 hline hp
    rw [evalOutcome_32 b fs line h a h32 hline hp]
    refine ⟨?_, ?_, ?_⟩
    · intro hlt
      rw [if_pos hlt]
    · intro hlt
      rw [if_neg (lt_asymm hlt), if_pos hlt]
    · intro heq
      rw [if_neg (by rw [heq]; exact lt_irrefl _),
        if_neg (by rw [heq]; exact lt_irrefl _)]
  · intro h32 hp
    exact evalOutcome_32_err b fs h32 hp
  · intro now sendOk matchId st
    exact applyOutcome_error now sendOk matchId b st

theorem outcome_evaluation_rules_witness :
    evalOutcome bet80A "2-0" = some "win" ∧
    evalOutcome bet80A "3-1" = some "loss" ∧
    evalOutcome bet32A "2-1" = some "win" ∧
    evalOutcome bet32A "1-1" = some "loss" ∧
    evalOutcome bet32A "bad-data" = some "error" ∧
    applyOutcome 0 (fun _ => true) 3 bet32A (some "error") store80 = store80 := by
  refine ⟨?_, ?_, ?_, ?_, ?_, ?_⟩
  · exact ((outcome_evaluation_rules bet80A "2-0").1 rfl).1.mpr rfl
  · exact ((outcome_evaluation_rules bet80A "3-1").1 rfl).2 (by decide)
  · exact ((outcome_evaluation_rules bet32A "2-1").2.1 (Rat.divInt 5 2) 2 1 rfl rfl
      (by decide)).1 (by decide)
  · exact ((outcome_evaluation_rules bet32A "1-1").2.1 (Rat.divInt 5 2) 1 1 rfl rfl
      (by decide)).2.1 (by decide)
  · exact (outcome_evaluation_rules bet32A "bad-data").2.2.1 rfl (by decide)
  · exact (outcome_evaluation_rules bet32A "x").2.2.2 0 (fun _ => true) 3 store80

/-! ## Lemmas about the sweep loop -/

theorem applyOutcome_marker (now : Int) (sendOk : Nat → Bool) (matchId : Nat)
    (b : BetRecord) (oc : Option String) (st : Store) :
    (applyOutcome now sendOk matchId b oc st).lastResolutionApiCall
      = st.lastResolutionApiCall := by
  unfold applyOutcome
  cases oc with
  | none => rfl
  | some oc =>
    dsimp only
    by_cases h1 : (oc != "error") = true
    · rw [if_pos h1]
      by_cases h2 : sendOk matchId = true
      · rw [if_pos h2]; rfl
      · rw [if_neg h2]
    · rw [if_neg h1]

theorem sweepStep_marker (now : Int) (fetch : Nat → Option FixtureData)
    (sendOk : Nat → Bool) (acc : Store × List Nat × Bool) (e : Nat × BetRecord) :
    (sweepStep now fetch sendOk acc e).1.lastResolutionApiCall
      = acc.1.lastResolutionApiCall := by
  unfold sweepStep
  cases hf : fetch e.1
  · rfl
  · dsimp only
    split
    · exact applyOutcome_marker _ _ _ _ _ _
    · rfl

theorem sweepFold_fetched (now : Int) (fetch : Nat → Option FixtureData)
    (sendOk : Nat → Bool) (l : List (Nat × BetRecord)) :
    ∀ acc : Store × List Nat × Bool,
      (l.foldl (sweepStep now fetch sendOk) acc).2.1 = acc.2.1 ++ l.map Prod.fst := by
  induction l with
  | nil => intro acc; simp
  | cons e l ih =>
    intro acc
    rw [List.foldl_cons, ih]
    cases hf : fetch e.1 <;> simp [sweepStep, hf]

theorem sweepFold_marker (now : Int) (fetch : Nat → Option FixtureData)
    (sendOk : Nat → Bool) (l : List (Nat × BetRecord)) :
    ∀ acc : Store × List Nat × Bool,
      (l.foldl (sweepStep now fetch sendOk) acc).1.lastResolutionApiCall
        = acc.1.lastResolutionApiCall := by
  induction l with
  | nil => intro acc; rfl
  | cons e l ih =>
    intro acc
    rw [List.foldl_cons, ih, sweepStep_marker]

theorem sweepFold_flag (now : Int) (fetch : Nat → Option FixtureData)
    (sendOk : Nat → Bool) (l : List (Nat × BetRecord)) :
    ∀ acc : Store × List Nat × Bool,
      (l.foldl (sweepStep now fetch sendOk) acc).2.2
        = (acc.2.2 || l.any (fun p => (fetch p.1).isSome)) := by
  induction l with
  | nil => intro acc; simp
  | cons e l ih =>
    intro acc
    rw [List.foldl_cons, ih]
    cases hf : fetch e.1 <;> simp [sweepStep, hf, Bool.or_assoc]

/-- Reduction of the sweep past its two early returns. -/
theorem checkAndResolve_else (now : Int) (fetch : Nat → Option FixtureData)
    (sendOk : Nat → Bool) (st : Store)
    (hne : getStaleUnresolvedBets now st.unresolvedBets ≠ [])
    (hgate : ¬ timeSinceLastCall now st.lastResolutionApiCall < FIXTURE_API_INTERVAL) :
    checkAndResolveStaleBets now fetch sendOk st =
      (let r := (getStaleUnresolvedBets now st.unresolvedBets).foldl
          (sweepStep now fetch sendOk) (st, [], false)
       ⟨if r.2.2 then updateLastApiCall now r.1 else r.1, r.2.1⟩) := by
  unfold checkAndResolveStaleBets
  rw [if_neg (fun h => hne (List.isEmpty_iff.mp h)), if_neg hgate]

/-! ## C4: the 15-minute time gate -/

/-- C4: with a non-empty stale set, a marker parsing to less than
`FIXTURE_API_INTERVAL` (900 s) ago makes the sweep return with no
per-fixture fetch and an unchanged store (in particular an unchanged
marker); an absent or unparsable marker makes the sweep proceed to fetch
every stale record. -/
theorem staleSweep_time_gate (now : Int) (fetch : Nat → Option FixtureData)
    (sendOk : Nat → Bool) (st : Store)
    (hne : getStaleUnresolvedBets now st.unresolvedBets ≠ []) :
    (∀ t, st.lastResolutionApiCall = some (some t) → now - t < FIXTURE_API_INTERVAL →
      checkAndResolveStaleBets now fetch sendOk st = ⟨st, []⟩) ∧
    ((st.lastResolutionApiCall = none ∨ st.lastResolutionApiCall = some none) →
      (checkAndResolveStaleBets now fetch sendOk st).fetched =
        (getStaleUnresolvedBets now st.unresolvedBets).map Prod.fst ∧
      (checkAndResolveStaleBets now fetch sendOk st).fetched ≠ []) := by
  constructor
  · intro t hm hlt
    unfold checkAndResolveStaleBets
    rw [if_neg (fun h => hne (List.isEmpty_iff.mp h))]
    have : timeSinceLastCall now st.lastResolutionApiCall < FIXTURE_API_INTERVAL := by
      rw [hm]
      exact hlt
    rw [if_pos this]
  · intro hm
    have h901 : ¬ ((FIXTURE_API_INTERVAL + 1 : Int) < FIXTURE_API_INTERVAL) := by decide
    have hgate : ¬ timeSinceLastCall now st.lastResolutionApiCall < FIXTURE_API_INTERVAL := by
      rcases hm with hm | hm <;> rw [hm] <;> exact h901
    rw [checkAndResolve_else now fetch sendOk st hne hgate]
    dsimp only
    rw [sweepFold_fetched]
    refine ⟨rfl, ?_⟩
    simp only [List.nil_append, ne_eq, List.map_eq_nil_iff]
    exact hne

/-- Store whose marker parses to 1500, holding one stale bet (placed at 0). -/
def stGate : Store :=
  { trackedMatches := fun _ => none, unresolvedBets := [(3, bet80A)]
    resolvedBets := [], lastResolutionApiCall := some (some 1500) }

/-- Oracle: every per-fixture fetch fails. -/
def fetchNone : Nat → Option FixtureData := fun _ => none

/-- Oracle: every notification send fails. -/
def sendNever : Nat → Bool := fun _ => false

theorem staleSweep_time_gate_witness :
    getStaleUnresolvedBets 2000 stGate.unresolvedBets ≠ [] ∧
    checkAndResolveStaleBets 2000 fetchNone sendNever stGate = ⟨stGate, []⟩ ∧
    getStaleUnresolvedBets 100000 store80.unresolvedBets ≠ [] ∧
    (checkAndResolveStaleBets 100000 fetchNone sendNever store80).fetched ≠ [] := by
  refine ⟨by decide, ?_, by decide, ?_⟩
  · exact (staleSweep_time_gate 2000 fetchNone sendNever stGate (by decide)).1
      1500 rfl (by decide)
  · exact ((staleSweep_time_gate 100000 fetchNone sendNever store80 (by decide)).2
      (Or.inl rfl)).2

/-! ## C5: only 20-minute-stale records are fetched -/

/-- C5: every fixture id the sweep fetches belongs to an unresolved record
whose `placed_at` timestamp parses to a time strictly older than the
20-minute staleness threshold (so no record younger than 20 minutes is ever
fetched). -/
theorem staleSweep_fetches_only_stale (now : Int) (fetch : Nat → Option FixtureData)
    (sendOk : Nat → Bool) (st : Store) :
    ∀ id ∈ (checkAndResolveStaleBets now fetch sendOk st).fetched,
      ∃ b t, (id, b) ∈ st.unresolvedBets ∧ b.placedAt = some (some t) ∧
        t < now - 20 * 60 := by
  intro id hid
  by_cases h1 : getStaleUnresolvedBets now st.unresolvedBets = []
  · unfold checkAndResolveStaleBets at hid
    rw [if_pos (List.isEmpty_iff.mpr h1)] at hid
    simp at hid
  by_cases h2 : timeSinceLastCall now st.lastResolutionApiCall < FIXTURE_API_INTERVAL
  · unfold checkAndResolveStaleBets at hid
    rw [if_neg (fun hh => h1 (List.isEmpty_iff.mp hh)), if_pos h2] at hid
    simp at hid
  · rw [checkAndResolve_else now fetch sendOk st h1 h2] at hid
    dsimp only at hid
    rw [sweepFold_fetched] at hid
    simp only [List.nil_append, List.mem_map] at hid
    obtain ⟨p, hp, hp1⟩ := hid
    obtain ⟨pf, b⟩ := p
    dsimp only at hp1
    subst hp1
    have hmem := List.mem_filter.mp hp
    obtain ⟨hin, hstale⟩ := hmem
    dsimp only at hstale
    refine ⟨b, ?_⟩
    rcases hpa : b.placedAt with _ | pa
    · rw [isStaleBet, hpa] at hstale
      simp at hstale
    · rcases hpa2 : pa with _ | t
      · rw [isStaleBet, hpa, hpa2] at hstale
        simp at hstale
      · refine ⟨t, hin, by simp [hpa, hpa2], ?_⟩
        rw [isStaleBet, hpa, hpa2] at hstale
        have := (Bool.and_eq_true _ _).mp hstale
        exact of_decide_eq_true this.2

theorem staleSweep_fetches_only_stale_witness :
    (3 : Nat) ∈ (checkAndResolveStaleBets 100000 fetchNone sendNever store80).fetched ∧
    ∃ b t, ((3 : Nat), b) ∈ store80.unresolvedBets ∧ b.placedAt = some (some t) ∧
      t < 100000 - 20 * 60 :=
  ⟨by decide,
   staleSweep_fetches_only_stale 100000 fetchNone sendNever store80 3 (by decide)⟩

/-! ## C6: the marker advances iff some fetch succeeded -/

/-- C6: once the sweep's fetch phase runs (non-empty stale set, gate
passed), the last-resolution-call marker afterwards equals "now" iff at
least one per-fixture fetch succeeded — regardless of terminal status — and
if every fetch failed the marker is exactly what it was before.  The
well-formedness hypothesis `hwf` (every stale `32_over` record carries its
`over_line`) delimits the domain on which the embedding is
exception-faithful: a missing line would make the Python loop die with an
uncaught `TypeError` instead of completing the sweep. -/
theorem staleSweep_marker_advance (now : Int) (fetch : Nat → Option FixtureData)
    (sendOk : Nat → Bool) (st : Store)
    (hne : getStaleUnresolvedBets now st.unresolvedBets ≠ [])
    (hgate : ¬ timeSinceLastCall now st.lastResolutionApiCall < FIXTURE_API_INTERVAL)
    (hwf : ∀ p ∈ getStaleUnresolvedBets now st.unresolvedBets,
      p.2.betType = BET_TYPE_32_OVER → p.2.overLine ≠ none) :
    ((checkAndResolveStaleBets now fetch sendOk st).store.lastResolutionApiCall
        = some (some now)
      ↔ ∃ p ∈ getStaleUnresolvedBets now st.unresolvedBets, (fetch p.1).isSome = true) ∧
    ((∀ p ∈ getStaleUnresolvedBets now st.unresolvedBets, fetch p.1 = none) →
      (checkAndResolveStaleBets now fetch sendOk st).store.lastResolutionApiCall
        = st.lastResolutionApiCall) := by
  rw [checkAndResolve_else now fetch sendOk st hne hgate]
  dsimp only
  rw [sweepFold_flag]
  simp only [Bool.false_or]
  constructor
  · constructor
    · intro hmark
      cases hany : (getStaleUnresolvedBets now st.unresolvedBets).any
          (fun p => (fetch p.1).isSome)
      · rw [hany] at hmark
        simp only [if_neg, Bool.false_eq_true, ite_false] at hmark
        rw [sweepFold_marker] at hmark
        exfalso
        apply hgate
        rw [hmark]
        unfold timeSinceLastCall
        simp [FIXTURE_API_INTERVAL]
      · simpa using List.any_eq_true.mp hany
    · intro hex
      have hany : (getStaleUnresolvedBets now st.unresolvedBets).any
          (fun p => (fetch p.1).isSome) = true := by
        apply List.any_eq_true.mpr
        simpa using hex
      rw [hany]
      rfl
  · intro hall
    have hany : (getStaleUnresolvedBets now st.unresolvedBets).any
        (fun p => (fetch p.1).isSome) = false := by
      apply List.any_eq_false.mpr
      intro p hp
      rw [hall p hp]
      simp
    rw [hany]
    simp only [Bool.false_eq_true, ite_false]
    rw [sweepFold_marker]

/-- Terminal fixture data (final score 2-0). -/
def mdFT : FixtureData := { statusShort := "FT", goalsHome := some 2, goalsAway := some 0 }

/-- Oracle: every per-fixture fetch returns the finished fixture `mdFT`. -/
def fetchFT : Nat → Option FixtureData := fun _ => some mdFT

/-- Oracle: every notification send succeeds. -/
def sendAlways : Nat → Bool := fun _ => true

theorem staleSweep_marker_advance_witness :
    (checkAndResolveStaleBets 100000 fetchFT sendAlways store80).store.lastResolutionApiCall
      = some (some 100000) ∧
    (checkAndResolveStaleBets 100000 fetchNone sendNever store80).store.lastResolutionApiCall
      = store80.lastResolutionApiCall := by
  constructor
  · exact (staleSweep_marker_advance 100000 fetchFT sendAlways store80 (by decide)
      (by decide) (by decide)).1.mpr ⟨(3, bet80A), by decide, rfl⟩
  · exact (staleSweep_marker_advance 100000 fetchNone sendNever store80 (by decide)
      (by decide) (by decide)).2 (fun _ _ => rfl)

/-! ## C9: the resolution move happens only on notification-send success -/

/-- C9: for a stale record whose fetch returns a fixture in terminal
status, the per-record step leaves the store completely unchanged when the
send fails (so the record remains unresolved and no part of the
resolved-write / unresolved-delete / tracked-delete move happens), and any
change to the store implies the send succeeded. -/
theorem resolution_move_requires_send (now : Int) (fetch : Nat → Option FixtureData)
    (sendOk : Nat → Bool) (matchId : Nat) (b : BetRecord) (md : FixtureData)
    (st : Store) (f : List Nat) (flag : Bool)
    (hf : fetch matchId = some md)
    (hterm : STATUS_FINISHED.contains md.statusShort = true) :
    (sendOk matchId = false →
      (sweepStep now fetch sendOk (st, f, flag) (matchId, b)).1 = st ∧
      getEntry matchId
          (sweepStep now fetch sendOk (st, f, flag) (matchId, b)).1.unresolvedBets
        = getEntry matchId st.unresolvedBets) ∧
    ((sweepStep now fetch sendOk (st, f, flag) (matchId, b)).1 ≠ st →
      sendOk matchId = true) := by
  have hstep : (sweepStep now fetch sendOk (st, f, flag) (matchId, b)).1
      = applyOutcome now sendOk matchId b
          (evalOutcome b (mkScore (md.goalsHome.getD 0) (md.goalsAway.getD 0))) st := by
    unfold sweepStep
    rw [hf]
    dsimp only
    rw [if_pos hterm]
  constructor
  · intro hs
    have hst : (sweepStep now fetch sendOk (st, f, flag) (matchId, b)).1 = st := by
      rw [hstep]
      exact applyOutcome_send_failed now sendOk matchId b _ st hs
    exact ⟨hst, by rw [hst]⟩
  · intro hchg
    cases hs : sendOk matchId
    · exfalso
      apply hchg
      rw [hstep]
      exact applyOutcome_send_failed now sendOk matchId b _ st hs
    · rfl

theorem resolution_move_requires_send_witness :
    (sweepStep 100000 fetchFT sendNever (store80, [], false) (3, bet80A)).1 = store80 ∧
    getEntry 3 (sweepStep 100000 fetchFT sendNever
        (store80, [], false) (3, bet80A)).1.unresolvedBets
      = getEntry 3 store80.unresolvedBets :=
  (resolution_move_requires_send 100000 fetchFT sendNever 3 bet80A mdFT
    store80 [] false rfl rfl).1 rfl

/-! ## Lemmas about the live cycle -/

theorem stateOf_bet32 (m : MatchSnapshot) (st : Store) :
    (stateOf m st).bet32Placed = flag32 m.fixtureId st := rfl

theorem stateOf_bet80 (m : MatchSnapshot) (st : Store) :
    (stateOf m st).bet80Placed = flag80 m.fixtureId st := rfl

theorem processLiveMatch_guard1 (now : Int) (m : MatchSnapshot) (st : Store)
    (h : statusNotLive m.statusShort = true) :
    processLiveMatch now m st = (st, []) := by
  unfold processLiveMatch
  rw [if_pos h]

theorem processLiveMatch_guard2 (now : Int) (m : MatchSnapshot) (st : Store)
    (h1 : statusNotLive m.statusShort = false) (h2 : elapsedMissing m = true) :
    processLiveMatch now m st = (st, []) := by
  unfold processLiveMatch
  rw [if_neg (by simp [h1]), if_pos h2]

/-- Past both guards, `process_live_match` is exactly the trigger dispatch:
the cleanup at lines 391–392 can never fire there, because a status that
passed the live guard is not a terminal status. -/
theorem processLiveMatch_live (now : Int) (m : MatchSnapshot) (st : Store)
    (h1 : statusNotLive m.statusShort = false) (h2 : elapsedMissing m = false) :
    processLiveMatch now m st = triggerStep now m st := by
  unfold processLiveMatch
  rw [if_neg (by simp [h1]), if_neg (by simp [h2])]
  dsimp only
  rw [finishedCleanup_noop _ (statusFinished_contains_false (statusNotLive_false_cases h1))]

theorem cond32_false_of_flag (m : MatchSnapshot) (st : Store)
    (h : flag32 m.fixtureId st = true) :
    cond32 m (stateOf m st) = false := by
  unfold cond32
  rw [stateOf_bet32, h]
  simp

theorem cond80_false_of_flag (m : MatchSnapshot) (st : Store)
    (h : flag80 m.fixtureId st = true) :
    cond80 m (stateOf m st) = false := by
  unfold cond80
  rw [stateOf_bet80, h]
  simp

/-- The two trigger windows are mutually exclusive: a second-half snapshot
is not a first-half one. -/
theorem cond32_false_of_cond80 (m : MatchSnapshot) (s s' : TrackedState)
    (h : cond80 m s = true) :
    cond32 m s' = false := by
  unfold cond80 at h
  simp only [Bool.and_eq_true] at h
  obtain ⟨⟨hbeq, -⟩, -⟩ := h
  have h2h : pyUpper m.statusShort = "2H" := eq_of_beq hbeq
  unfold cond32
  rw [h2h]
  rw [(by decide : (("2H" : String) == "1H") = false)]
  simp

theorem place32_flag32 (now : Int) (state : TrackedState) (m : MatchSnapshot)
    (score : String) (st : Store) :
    flag32 m.fixtureId (place32OverBet now state m score st).1 = true := by
  unfold place32OverBet
  by_cases hq : (["0-1", "1-0"].contains score) = true
  · rw [if_pos hq]
    dsimp only
    rw [flag32_addUnresolvedBet, flag32_updateTrackedMatch_self]
  · rw [if_neg hq]
    dsimp only
    rw [flag32_updateTrackedMatch_self]

theorem place32_flag80 (now : Int) (state : TrackedState) (m : MatchSnapshot)
    (score : String) (st : Store) :
    flag80 m.fixtureId (place32OverBet now state m score st).1 = state.bet80Placed := by
  unfold place32OverBet
  by_cases hq : (["0-1", "1-0"].contains score) = true
  · rw [if_pos hq]
    dsimp only
    rw [flag80_addUnresolvedBet, flag80_updateTrackedMatch_self]
  · rw [if_neg hq]
    dsimp only
    rw [flag80_updateTrackedMatch_self]

theorem place80_flag80 (now : Int) (state : TrackedState) (m : MatchSnapshot)
    (score : String) (st : Store) :
    flag80 m.fixtureId (place80MinuteBet now state m score st).1 = true := by
  unfold place80MinuteBet
  by_cases hq : (BET_SCORES_80_MINUTE.contains score) = true
  · rw [if_pos hq]
    dsimp only
    rw [flag80_addUnresolvedBet, flag80_updateTrackedMatch_self]
  · rw [if_neg hq]
    dsimp only
    rw [flag80_updateTrackedMatch_self]

theorem place80_flag32 (now : Int) (state : TrackedState) (m : MatchSnapshot)
    (score : String) (st : Store) :
    flag32 m.fixtureId (place80MinuteBet now state m score st).1 = state.bet32Placed := by
  unfold place80MinuteBet
  by_cases hq : (BET_SCORES_80_MINUTE.contains score) = true
  · rw [if_pos hq]
    dsimp only
    rw [flag32_addUnresolvedBet, flag32_updateTrackedMatch_self]
  · rw [if_neg hq]
    dsimp only
    rw [flag32_updateTrackedMatch_self]

theorem place32_events (now : Int) (state : TrackedState) (m : MatchSnapshot)
    (score : String) (st : Store) :
    count32 (place32OverBet now state m score st).2 ≤ 1 ∧
    count80 (place32OverBet now state m score st).2 = 0 := by
  unfold place32OverBet
  by_cases hq : (["0-1", "1-0"].contains score) = true
  · rw [if_pos hq]
    dsimp only
    constructor
    · unfold count32
      rw [List.countP_cons, List.countP_nil]
      split <;> simp
    · unfold count80
      rw [List.countP_cons, List.countP_nil]
      rw [if_neg (by simp [(by decide : (BET_TYPE_32_OVER == BET_TYPE_80_MINUTE) = false)])]
  · rw [if_neg hq]
    exact ⟨Nat.zero_le 1, rfl⟩

theorem place80_events (now : Int) (state : TrackedState) (m : MatchSnapshot)
    (score : String) (st : Store) :
    count32 (place80MinuteBet now state m score st).2 = 0 ∧
    count80 (place80MinuteBet now state m score st).2 ≤ 1 := by
  unfold place80MinuteBet
  by_cases hq : (BET_SCORES_80_MINUTE.contains score) = true
  · rw [if_pos hq]
    dsimp only
    constructor
    · unfold count32
      rw [List.countP_cons, List.countP_nil]
      rw [if_neg (by simp [(by decide : (BET_TYPE_80_MINUTE == BET_TYPE_32_OVER) = false)])]
    · unfold count80
      rw [List.countP_cons, List.countP_nil]
      split <;> simp
  · rw [if_neg hq]
    exact ⟨rfl, Nat.zero_le 1⟩

theorem processLiveMatch_count32_le (now : Int) (m : MatchSnapshot) (st : Store) :
    count32 (processLiveMatch now m st).2 ≤ 1 := by
  cases g1 : statusNotLive m.statusShort with
  | true =>
    rw [processLiveMatch_guard1 now m st g1]
    exact Nat.zero_le 1
  | false =>
    cases g2 : elapsedMissing m with
    | true =>
      rw [processLiveMatch_guard2 now m st g1 g2]
      exact Nat.zero_le 1
    | false =>
      rw [processLiveMatch_live now m st g1 g2]
      unfold triggerStep
      by_cases c1 : cond32 m (stateOf m st) = true
      · rw [if_pos c1]
        exact (place32_events now (stateOf m st) m (scoreOf m) st).1
      · rw [if_neg c1]
        by_cases c2 : cond80 m (stateOf m st) = true
        · rw [if_pos c2]
          rw [(place80_events now (stateOf m st) m (scoreOf m) st).1]
          exact Nat.zero_le 1
        · rw [if_neg c2]
          exact Nat.zero_le 1

theorem processLiveMatch_count80_le (now : Int) (m : MatchSnapshot) (st : Store) :
    count80 (processLiveMatch now m st).2 ≤ 1 := by
  cases g1 : statusNotLive m.statusShort with
  | true =>
    rw [processLiveMatch_guard1 now m st g1]
    exact Nat.zero_le 1
  | false =>
    cases g2 : elapsedMissing m with
    | true =>
      rw [processLiveMatch_guard2 now m st g1 g2]
      exact Nat.zero_le 1
    | false =>
      rw [processLiveMatch_live now m st g1 g2]
      unfold triggerStep
      by_cases c1 : cond32 m (stateOf m st) = true
      · rw [if_pos c1]
        rw [(place32_events now (stateOf m st) m (scoreOf m) st).2]
        exact Nat.zero_le 1
      · rw [if_neg c1]
        by_cases c2 : cond80 m (stateOf m st) = true
        · rw [if_pos c2]
          exact (place80_events now (stateOf m st) m (scoreOf m) st).2
        · rw [if_neg c2]
          exact Nat.zero_le 1

theorem processLiveMatch_flag32_mono (now : Int) (m : MatchSnapshot) (st : Store)
    (h : flag32 m.fixtureId st = true) :
    count32 (processLiveMatch now m st).2 = 0 ∧
    flag32 m.fixtureId (processLiveMatch now m st).1 = true := by
  cases g1 : statusNotLive m.statusShort with
  | true =>
    rw [processLiveMatch_guard1 now m st g1]
    exact ⟨rfl, h⟩
  | false =>
    cases g2 : elapsedMissing m with
    | true =>
      rw [processLiveMatch_guard2 now m st g1 g2]
      exact ⟨rfl, h⟩
    | false =>
      rw [processLiveMatch_live now m st g1 g2]
      unfold triggerStep
      rw [if_neg (by simp [cond32_false_of_flag m st h])]
      by_cases c2 : cond80 m (stateOf m st) = true
      · rw [if_pos c2]
        refine ⟨(place80_events now (stateOf m st) m (scoreOf m) st).1, ?_⟩
        rw [place80_flag32, stateOf_bet32]
        exact h
      · rw [if_neg c2]
        exact ⟨rfl, h⟩

theorem processLiveMatch_flag80_mono (now : Int) (m : MatchSnapshot) (st : Store)
    (h : flag80 m.fixtureId st = true) :
    count80 (processLiveMatch now m st).2 = 0 ∧
    flag80 m.fixtureId (processLiveMatch now m st).1 = true := by
  cases g1 : statusNotLive m.statusShort with
  | true =>
    rw [processLiveMatch_guard1 now m st g1]
    exact ⟨rfl, h⟩
  | false =>
    cases g2 : elapsedMissing m with
    | true =>
      rw [processLiveMatch_guard2 now m st g1 g2]
      exact ⟨rfl, h⟩
    | false =>
      rw [processLiveMatch_live now m st g1 g2]
      unfold triggerStep
      by_cases c1 : cond32 m (stateOf m st) = true
      · rw [if_pos c1]
        refine ⟨(place32_events now (stateOf m st) m (scoreOf m) st).2, ?_⟩
        rw [place32_flag80, stateOf_bet80]
        exact h
      · rw [if_neg c1, if_neg (by simp [cond80_false_of_flag m st h])]
        exact ⟨rfl, h⟩

theorem processLiveMatch_count32_flag (now : Int) (m : MatchSnapshot) (st : Store)
    (h : count32 (processLiveMatch now m st).2 ≠ 0) :
    flag32 m.fixtureId (processLiveMatch now m st).1 = true := by
  cases g1 : statusNotLive m.statusShort with
  | true =>
    rw [processLiveMatch_guard1 now m st g1] at h
    exact absurd rfl h
  | false =>
    cases g2 : elapsedMissing m with
    | true =>
      rw [processLiveMatch_guard2 now m st g1 g2] at h
      exact absurd rfl h
    | false =>
      rw [processLiveMatch_live now m st g1 g2] at h ⊢
      unfold triggerStep at h ⊢
      by_cases c1 : cond32 m (stateOf m st) = true
      · rw [if_pos c1]
        exact place32_flag32 now (stateOf m st) m (scoreOf m) st
      · rw [if_neg c1] at h ⊢
        by_cases c2 : cond80 m (stateOf m st) = true
        · rw [if_pos c2] at h
          exact absurd (place80_events now (stateOf m st) m (scoreOf m) st).1 h
        · rw [if_neg c2] at h
          exact absurd rfl h

theorem processLiveMatch_count80_flag (now : Int) (m : MatchSnapshot) (st : Store)
    (h : count80 (processLiveMatch now m st).2 ≠ 0) :
    flag80 m.fixtureId (processLiveMatch now m st).1 = true := by
  cases g1 : statusNotLive m.statusShort with
  | true =>
    rw [processLiveMatch_guard1 now m st g1] at h
    exact absurd rfl h
  | false =>
    cases g2 : elapsedMissing m with
    | true =>
      rw [processLiveMatch_guard2 now m st g1 g2] at h
      exact absurd rfl h
    | false =>
      rw [processLiveMatch_live now m st g1 g2] at h ⊢
      unfold triggerStep at h ⊢
      by_cases c1 : cond32 m (stateOf m st) = true
      · rw [if_pos c1] at h
        exact absurd (place32_events now (stateOf m st) m (scoreOf m) st).2 h
      · rw [if_neg c1] at h ⊢
        by_cases c2 : cond80 m (stateOf m st) = true
        · rw [if_pos c2]
          exact place80_flag80 now (stateOf m st) m (scoreOf m) st
        · rw [if_neg c2] at h
          exact absurd rfl h

theorem runLiveCycles_cons (p : Int × MatchSnapshot) (l : List (Int × MatchSnapshot))
    (st : Store) :
    runLiveCycles (p :: l) st =
      ((runLiveCycles l (processLiveMatch p.1 p.2 st).1).1,
       (processLiveMatch p.1 p.2 st).2 ++ (runLiveCycles l (processLiveMatch p.1 p.2 st).1).2) :=
  rfl

theorem runLiveCycles_flag32_mono (id : Nat) (l : List (Int × MatchSnapshot)) :
    ∀ st : Store, (∀ p ∈ l, p.2.fixtureId = id) → flag32 id st = true →
      count32 (runLiveCycles l st).2 = 0 ∧ flag32 id (runLiveCycles l st).1 = true := by
  induction l with
  | nil => exact fun st _ h => ⟨rfl, h⟩
  | cons p l ih =>
    intro st hall h
    have hid : p.2.fixtureId = id := hall p (List.mem_cons_self _ _)
    have h1 := processLiveMatch_flag32_mono p.1 p.2 st (by rw [hid]; exact h)
    rw [hid] at h1
    have h2 := ih (processLiveMatch p.1 p.2 st).1
      (fun q hq => hall q (List.mem_cons_of_mem _ hq)) h1.2
    rw [runLiveCycles_cons]
    exact ⟨by rw [count32_append, h1.1, h2.1], h2.2⟩

theorem runLiveCycles_flag80_mono (id : Nat) (l : List (Int × MatchSnapshot)) :
    ∀ st : Store, (∀ p ∈ l, p.2.fixtureId = id) → flag80 id st = true →
      count80 (runLiveCycles l st).2 = 0 ∧ flag80 id (runLiveCycles l st).1 = true := by
  induction l with
  | nil => exact fun st _ h => ⟨rfl, h⟩
  | cons p l ih =>
    intro st hall h
    have hid : p.2.fixtureId = id := hall p (List.mem_cons_self _ _)
    have h1 := processLiveMatch_flag80_mono p.1 p.2 st (by rw [hid]; exact h)
    rw [hid] at h1
    have h2 := ih (processLiveMatch p.1 p.2 st).1
      (fun q hq => hall q (List.mem_cons_of_mem _ hq)) h1.2
    rw [runLiveCycles_cons]
    exact ⟨by rw [count80_append, h1.1, h2.1], h2.2⟩

theorem runLiveCycles_count32_le (id : Nat) (l : List (Int × MatchSnapshot)) :
    ∀ st : Store, (∀ p ∈ l, p.2.fixtureId = id) →
      count32 (runLiveCycles l st).2 ≤ 1 := by
  induction l with
  | nil => exact fun st _ => Nat.zero_le 1
  | cons p l ih =>
    intro st hall
    have hid : p.2.fixtureId = id := hall p (List.mem_cons_self _ _)
    rw [runLiveCycles_cons, count32_append]
    cases hz : count32 (processLiveMatch p.1 p.2 st).2 with
    | zero =>
      rw [Nat.zero_add]
      exact ih (processLiveMatch p.1 p.2 st).1 (fun q hq => hall q (List.mem_cons_of_mem _ hq))
    | succ n =>
      have hflag : flag32 id (processLiveMatch p.1 p.2 st).1 = true := by
        rw [← hid]
        exact processLiveMatch_count32_flag p.1 p.2 st (by rw [hz]; exact Nat.succ_ne_zero n)
      have htail := (runLiveCycles_flag32_mono id l (processLiveMatch p.1 p.2 st).1
        (fun q hq => hall q (List.mem_cons_of_mem _ hq)) hflag).1
      have hhead := processLiveMatch_count32_le p.1 p.2 st
      rw [hz] at hhead
      rw [htail]
      omega

theorem runLiveCycles_count80_le (id : Nat) (l : List (Int × MatchSnapshot)) :
    ∀ st : Store, (∀ p ∈ l, p.2.fixtureId = id) →
      count80 (runLiveCycles l st).2 ≤ 1 := by
  induction l with
  | nil => exact fun st _ => Nat.zero_le 1
  | cons p l ih =>
    intro st hall
    have hid : p.2.fixtureId = id := hall p (List.mem_cons_self _ _)
    rw [runLiveCycles_cons, count80_append]
    cases hz : count80 (processLiveMatch p.1 p.2 st).2 with
    | zero =>
      rw [Nat.zero_add]
      exact ih (processLiveMatch p.1 p.2 st).1 (fun q hq => hall q (List.mem_cons_of_mem _ hq))
    | succ n =>
      have hflag : flag80 id (processLiveMatch p.1 p.2 st).1 = true := by
        rw [← hid]
        exact processLiveMatch_count80_flag p.1 p.2 st (by rw [hz]; exact Nat.succ_ne_zero n)
      have htail := (runLiveCycles_flag80_mono id l (processLiveMatch p.1 p.2 st).1
        (fun q hq => hall q (List.mem_cons_of_mem _ hq)) hflag).1
      have hhead := processLiveMatch_count80_le p.1 p.2 st
      rw [hz] at hhead
      rw [htail]
      omega

/-! ## C2: at most one unresolved record per trigger window per match -/

/-- C2: across any number of live polling cycles observing the same match
(store writes modelled as always succeeding): each trigger window creates at
most one unresolved bet record; once a window flag is true it stays true and
that window creates nothing further; and the window handlers set their flag
in both the qualifying-score and non-qualifying-score outcome. -/
theorem at_most_one_record_per_window (id : Nat) (l : List (Int × MatchSnapshot))
    (st : Store) (hall : ∀ p ∈ l, p.2.fixtureId = id) :
    count32 (runLiveCycles l st).2 ≤ 1 ∧
    count80 (runLiveCycles l st).2 ≤ 1 ∧
    (flag32 id st = true → count32 (runLiveCycles l st).2 = 0 ∧
      flag32 id (runLiveCycles l st).1 = true) ∧
    (flag80 id st = true → count80 (runLiveCycles l st).2 = 0 ∧
      flag80 id (runLiveCycles l st).1 = true) ∧
    (∀ now state m score s,
      flag32 m.fixtureId (place32OverBet now state m score s).1 = true) ∧
    (∀ now state m score s,
      flag80 m.fixtureId (place80MinuteBet now state m score s).1 = true) :=
  ⟨runLiveCycles_count32_le id l st hall,
   runLiveCycles_count80_le id l st hall,
   runLiveCycles_flag32_mono id l st hall,
   runLiveCycles_flag80_mono id l st hall,
   place32_flag32, place80_flag80⟩

/-- Store with no documents at all. -/
def emptyStore : Store :=
  { trackedMatches := fun _ => none, unresolvedBets := []
    resolvedBets := [], lastResolutionApiCall := none }

/-- First-half snapshot of fixture 7 at minute 32 with qualifying score 1-0. -/
def snap32 : MatchSnapshot :=
  { fixtureId := 7, statusShort := "1H", elapsed := some 32, goalsHome := some 1
    goalsAway := some 0, matchName := "A vs B", leagueName := "L", country := "C"
    leagueId := 1 }

/-- Two consecutive cycles both observing fixture 7 inside the 31–33 window. -/
def demoRun : List (Int × MatchSnapshot) := [(100, snap32), (200, snap32)]

theorem at_most_one_record_per_window_witness :
    count32 (runLiveCycles demoRun emptyStore).2 = 1 ∧
    count32 (runLiveCycles demoRun emptyStore).2 ≤ 1 ∧
    count80 (runLiveCycles demoRun emptyStore).2 ≤ 1 := by
  refine ⟨by decide, ?_, ?_⟩
  · exact (at_most_one_record_per_window 7 demoRun emptyStore (by decide)).1
  · exact (at_most_one_record_per_window 7 demoRun emptyStore (by decide)).2.1

/-! ## C8: when the tracked state is written back -/

/-- First-half snapshot of fixture 7 at minute 10 (outside every window). -/
def snap1H10 : MatchSnapshot :=
  { fixtureId := 7, statusShort := "1H", elapsed := some 10, goalsHome := some 0
    goalsAway := some 0, matchName := "A vs B", leagueName := "L", country := "C"
    leagueId := 1 }

/-- C8 counterexample: a snapshot that passes the status/elapsed guard (live
`1H`, minute present) but sits outside both trigger windows leaves the store
entirely untouched — on the first observation of this live match no tracked
state is created, contradicting "always written back". -/
theorem trackedState_not_always_written :
    statusNotLive snap1H10.statusShort = false ∧
    elapsedMissing snap1H10 = false ∧
    getTrackedMatch snap1H10.fixtureId emptyStore = none ∧
    processLiveMatch 0 snap1H10 emptyStore = (emptyStore, []) ∧
    getTrackedMatch snap1H10.fixtureId (processLiveMatch 0 snap1H10 emptyStore).1 = none :=
  ⟨by decide, by decide, rfl, rfl, rfl⟩

/-- C8 amended: for guard-passing snapshots the tracked state is persisted
exactly when a trigger-window branch is entered (in which case its flag is
true afterwards, for qualifying and non-qualifying scores alike); in every
other guard-passing cycle `process_live_match` performs no store write at
all. -/
theorem trackedState_writeback_iff_window (now : Int) (m : MatchSnapshot) (st : Store)
    (h1 : statusNotLive m.statusShort = false) (h2 : elapsedMissing m = false) :
    (cond32 m (stateOf m st) = true →
      flag32 m.fixtureId (processLiveMatch now m st).1 = true) ∧
    (cond80 m (stateOf m st) = true →
      flag80 m.fixtureId (processLiveMatch now m st).1 = true) ∧
    (cond32 m (stateOf m st) = false → cond80 m (stateOf m st) = false →
      processLiveMatch now m st = (st, [])) := by
  rw [processLiveMatch_live now m st h1 h2]
  unfold triggerStep
  refine ⟨?_, ?_, ?_⟩
  · intro c1
    rw [if_pos c1]
    exact place32_flag32 now (stateOf m st) m (scoreOf m) st
  · intro c2
    rw [if_neg (by simp [cond32_false_of_cond80 m (stateOf m st) (stateOf m st) c2]),
      if_pos c2]
    exact place80_flag80 now (stateOf m st) m (scoreOf m) st
  · intro c1 c2
    rw [if_neg (by simp [c1]), if_neg (by simp [c2])]

theorem trackedState_writeback_iff_window_witness :
    statusNotLive snap32.statusShort = false ∧
    cond32 snap32 (stateOf snap32 emptyStore) = true ∧
    flag32 snap32.fixtureId (processLiveMatch 100 snap32 emptyStore).1 = true :=
  ⟨by decide, by decide,
   (trackedState_writeback_iff_window 100 snap32 emptyStore (by decide) (by decide)).1
     (by decide)⟩

/-! ## C10: a later 80' bet overwrites an unresolved 32' bet -/

/-- C10: when a match that already holds an unresolved `32_over` record
triggers the 80' window with a qualifying score, the `80_minute` record is
written under the same match-id key: afterwards the key holds exactly the
new `80_minute` record, the old `32_over` record is gone from the
collection, and the at-most-one-record-per-match invariant (one entry per
key) still holds. -/
theorem bet80_overwrites_bet32 (now : Int) (m : MatchSnapshot) (st : Store)
    (bA : BetRecord)
    (h1 : statusNotLive m.statusShort = false) (h2 : elapsedMissing m = false)
    (hA : getEntry m.fixtureId st.unresolvedBets = some bA)
    (hAtype : bA.betType = BET_TYPE_32_OVER)
    (hc80 : cond80 m (stateOf m st) = true)
    (hscore : BET_SCORES_80_MINUTE.contains (scoreOf m) = true) :
    ∃ bB, getEntry m.fixtureId (processLiveMatch now m st).1.unresolvedBets = some bB ∧
      bB.betType = BET_TYPE_80_MINUTE ∧
      bB.score80 = some (scoreOf m) ∧
      (m.fixtureId, bA) ∉ (processLiveMatch now m st).1.unresolvedBets ∧
      (processLiveMatch now m st).1.unresolvedBets.countP
        (fun p => p.1 == m.fixtureId) = 1 := by
  rw [processLiveMatch_live now m st h1 h2]
  unfold triggerStep
  rw [if_neg (by simp [cond32_false_of_cond80 m (stateOf m st) (stateOf m st) hc80]),
    if_pos hc80]
  unfold place80MinuteBet
  rw [if_pos hscore]
  dsimp only
  unfold addUnresolvedBet updateTrackedMatch
  dsimp only
  refine ⟨_, getEntry_setEntry_self _ _ _, rfl, rfl, ?_, countKey_setEntry_self _ _ _⟩
  intro hmem
  have hBA := mem_setEntry_of_key hmem
  have hB := congrArg BetRecord.betType hBA
  rw [hAtype] at hB
  have hB2 : BET_TYPE_32_OVER = BET_TYPE_80_MINUTE := hB
  exact absurd hB2 (by decide)

/-- Store holding the one unresolved `32_over` bet for fixture 3. -/
def store32 : Store :=
  { trackedMatches := fun _ => none, unresolvedBets := [(3, bet32A)]
    resolvedBets := [], lastResolutionApiCall := none }

/-- Second-half snapshot of fixture 3 at minute 80 with qualifying score 3-1. -/
def snap80 : MatchSnapshot :=
  { fixtureId := 3, statusShort := "2H", elapsed := some 80, goalsHome := some 3
    goalsAway := some 1, matchName := "A vs B", leagueName := "L", country := "C"
    leagueId := 1 }

theorem bet80_overwrites_bet32_witness :
    getEntry 3 store32.unresolvedBets = some bet32A ∧
    bet32A.betType = BET_TYPE_32_OVER ∧
    ∃ bB, getEntry 3 (processLiveMatch 50 snap80 store32).1.unresolvedBets = some bB ∧
      bB.betType = BET_TYPE_80_MINUTE ∧
      bB.score80 = some (scoreOf snap80) ∧
      ((3 : Nat), bet32A) ∉ (processLiveMatch 50 snap80 store32).1.unresolvedBets ∧
      (processLiveMatch 50 snap80 store32).1.unresolvedBets.countP
        (fun p => p.1 == 3) = 1 :=
  ⟨rfl, rfl,
   bet80_overwrites_bet32 50 snap80 store32 bet32A (by decide) (by decide) rfl rfl
     (by decide) (by decide)⟩

end BetBot
